import Mathlib

/-!
Verification of the validation and request-building layer of the OFFX MCP server.

The TypeScript source (src/index.ts) is shallowly embedded: every request
builder becomes a pure function from its argument bag to either a validation
error or the upstream HTTPS GET request it would issue (path plus ordered
query pairs), and the shared fetch epilogue becomes `handleResponse`.  A
`Run` value records the list of upstream requests actually issued, so
"makes zero upstream calls" is the statement `calls = []`.
-/

namespace Offx

/-- A JavaScript argument value as received by a request builder: the
source types fields as `string | number`, optionally absent (`undefined`)
or `null` when coming from a JSON body. -/
inductive Arg where
  | absent
  | null
  | str (s : String)
  | num (n : Int)
deriving DecidableEq

/-- JavaScript truthiness (`!!v`, `if (v)`): `undefined`, `null`, the empty
string and `0` are falsy. -/
def Arg.truthy : Arg → Bool
  | .absent => false
  | .null => false
  | .str s => s != ""
  | .num n => n != 0

/-- The presence test (not undefined, not null, not the empty string) used by the
query-building loops (note `0` passes here although it is falsy). -/
def Arg.present : Arg → Bool
  | .absent => false
  | .null => false
  | .str s => s != ""
  | .num _ => true

/-- JavaScript `String(v)` as applied to an argument value. -/
def Arg.render : Arg → String
  | .absent => "undefined"
  | .null => "null"
  | .str s => s
  | .num n => toString n

/-- The nullish-coalescing operator `a ?? d`. -/
def Arg.coalesce (a : Arg) (d : Arg) : Arg :=
  match a with
  | .absent => d
  | .null => d
  | x => x

/-- A JSON value, used for upstream response bodies and transport bodies. -/
inductive JVal where
  | jnull
  | jbool (b : Bool)
  | jnum (n : Int)
  | jstr (s : String)
  | jarr (xs : List JVal)
  | jobj (fields : List (String × JVal))

/-- JavaScript property access `j.k` on a parsed JSON value: a null
receiver throws a TypeError (the exact V8 message text is a runtime
detail; the model carries its shape without quote marks); any other
receiver — objects, and also primitives and arrays — yields the field
value, or undefined (none) when the property is missing. -/
def JVal.access (j : JVal) (k : String) : Except String (Option JVal) :=
  match j with
  | .jnull => .error ("TypeError: Cannot read properties of null (reading " ++ k ++ ")")
  | .jobj fs => .ok (fs.lookup k)
  | _ => .ok none

/-- JavaScript truthiness of a JSON value (arrays and objects are truthy). -/
def JVal.truthy : JVal → Bool
  | .jnull => false
  | .jbool b => b
  | .jnum n => n != 0
  | .jstr s => s != ""
  | .jarr _ => true
  | .jobj _ => true

/-- The expression `v.targets || []` used by the get_targets reshaping:
property access on a null body throws, and otherwise a falsy or missing
targets field becomes the empty array. -/
def targetsOrEmpty (v : JVal) : Except String JVal :=
  (v.access "targets").map fun t =>
    match t with
    | some x => if x.truthy then x else .jarr []
    | none => .jarr []

/-- A digit group of the regular expression: one or more decimal digits. -/
def goodGroup (g : List Char) : Bool :=
  !g.isEmpty && g.all Char.isDigit

/-- The test `/^\d+(,\d+)*$/.test s`: every comma-separated group of `s`
is a nonempty run of digits. -/
def matchesCommaNumbers (s : String) : Bool :=
  (s.data.splitOn ',').all goodGroup

/-- The error message of `validateCommaSeparatedNumbers`, naming the field
and the expected pattern. -/
def csnMsg (fieldName : String) : String :=
  fieldName ++ " must be a number or a comma-separated list of numbers (e.g., 1,2,3)"

/-- Function validateCommaSeparatedNumbers(param, fieldName) from src/index.ts:
passes undefined, null, the empty string, any number, and any string matching
`^\d+(,\d+)*$`; throws otherwise. -/
def validateCommaSeparatedNumbers (param : Arg) (fieldName : String) : Except String Unit :=
  match param with
  | .absent => .ok ()
  | .null => .ok ()
  | .num _ => .ok ()
  | .str s =>
      if s = "" then .ok ()
      else if matchesCommaNumbers s then .ok ()
      else .error (csnMsg fieldName)

/-- The error message of `validateStringEnum`, listing the allowed values. -/
def enumMsg (fieldName : String) (allowed : List String) : String :=
  fieldName ++ " must be one of: " ++ String.intercalate ", " allowed

/-- Function validateStringEnum(param, fieldName, allowed) from src/index.ts:
passes undefined, null, the empty string and any allowed string; throws on
non-strings and on strings outside `allowed`. -/
def validateStringEnum (param : Arg) (fieldName : String) (allowed : List String) :
    Except String Unit :=
  match param with
  | .absent => .ok ()
  | .null => .ok ()
  | .str s =>
      if s = "" then .ok ()
      else if allowed.contains s then .ok ()
      else .error (enumMsg fieldName allowed)
  | .num _ => .error (enumMsg fieldName allowed)

/-- Function validateNumber(param, fieldName) from src/index.ts: passes
`undefined`, `null` and numbers; throws on everything else (including
the empty string). -/
def validateNumber (param : Arg) (fieldName : String) : Except String Unit :=
  match param with
  | .absent => .ok ()
  | .null => .ok ()
  | .num _ => .ok ()
  | .str _ => .error (fieldName ++ " must be a number")

/-- Sequencing of a validator before the rest of a builder: the TypeScript
validators throw, aborting the builder. -/
def vseq (v : Except String Unit) (rest : Except String α) : Except String α :=
  match v with
  | .error e => .error e
  | .ok _ => rest

/-- An upstream HTTPS GET request: fixed path plus ordered query pairs
(the query as assembled by `URLSearchParams`, before percent-encoding). -/
structure Req where
  path : String
  query : List (String × String)
deriving DecidableEq

/-- An upstream HTTP response: status, raw body text, and the JSON value
the body parses to. -/
structure HttpResponse where
  status : Nat
  text : String
  json : JVal

/-- The shared fetch epilogue of every builder: `response.ok` (status
200-299) yields the parsed JSON body, otherwise the builder throws
`Request failed with status ${status}: ${body}`. -/
def handleResponse (r : HttpResponse) : Except String JVal :=
  if 200 ≤ r.status ∧ r.status ≤ 299 then .ok r.json
  else .error ("Request failed with status " ++ toString r.status ++ ": " ++ r.text)

/-- The observable behaviour of one builder invocation: the upstream
requests it issued, in order, and its final result. -/
structure Run (α : Type) where
  calls : List Req
  result : Except String α

/-- A builder failing before any upstream call. -/
def Run.pureErr (e : String) : Run α := ⟨[], .error e⟩

/-- Running a validated plan: a validation error issues no upstream call;
an accepted plan issues exactly one GET and applies the fetch epilogue. -/
def Run.ofValidated (oracle : Req → HttpResponse) (plan : Except String Req) : Run JVal :=
  match plan with
  | .error e => ⟨[], .error e⟩
  | .ok req => ⟨[req], handleResponse (oracle req)⟩

/-- Post-processing the successful result of a builder (errors and calls pass
through unchanged). -/
def Run.mapResult (f : α → β) (r : Run α) : Run β :=
  ⟨r.calls, r.result.map f⟩

/-- Post-processing the successful result of a builder by a computation
that may itself throw, as the get_targets reshaping can on a null body
(errors and calls pass through unchanged). -/
def Run.bindResult (f : α → Except String β) (r : Run α) : Run β :=
  ⟨r.calls, r.result.bind f⟩

/- Fixed upstream paths (src/index.ts URL literals, query stripped). -/

def drugSearchPath : String := "https://api.targetsafety.info/api/drug/search/param"

def drugAlertsPath : String := "https://api.targetsafety.info/api/drug/alerts/param"

def targetAlertsPath : String := "https://api.targetsafety.info/api/target/alerts/param"

def drugScorePath : String := "https://api.targetsafety.info/api/score/drug/search/param"

def targetScorePath : String := "https://api.targetsafety.info/api/score/target/search/param"

def drugMasterviewPath : String := "https://api.targetsafety.info/api/drug/masterview/param"

def targetMasterviewPath : String := "https://api.targetsafety.info/api/target/masterview/param"

def targetSearchPath : String := "https://api.targetsafety.info/api/target/search/param"

def adverseEventSearchPath : String := "https://api.targetsafety.info/api/adverseevent/search/param"

def primaryTargetsPath : String := "https://api.targetsafety.info/api/target/primary/search/param"

def secondaryTargetsPath : String := "https://api.targetsafety.info/api/target/secondary/search/param"

/-- A query pair appended only when the value passes the
presence test (not undefined, not null, not the empty string). -/
def optPair (name : String) (a : Arg) : List (String × String) :=
  if a.present then [(name, a.render)] else []

/-- Argument bag of `searchDrugsByName` (`drug` may arrive as any value
over the HTTP transport). -/
def searchDrugsByNamePlan (tok : String) (drug : Arg) : Except String Req :=
  if !drug.truthy then .error "drug is required"
  else .ok ⟨drugSearchPath, [("drug", drug.render), ("token", tok)]⟩

/-- Argument bag of `getDrugs` in src/index.ts. -/
structure GetDrugsParams where
  target_id : Arg := Arg.absent
  action_id : Arg := Arg.absent
  adverse_event_id : Arg := Arg.absent
  page : Arg := Arg.absent
deriving DecidableEq

/-- Builder getDrugs up to its single fetch: combination rule
(`target_id` AND `action_id` AND NOT `adverse_event_id`) XOR
(`adverse_event_id` alone), page defaulting to 1, drug-search path. -/
def getDrugsPlan (tok : String) (p : GetDrugsParams) : Except String Req :=
  let hasTarget := p.target_id.truthy
  let hasAction := p.action_id.truthy
  let hasAdve := p.adverse_event_id.truthy
  if (hasTarget && hasAction && !hasAdve) || (!hasTarget && !hasAction && hasAdve) then
    let pageNum := p.page.coalesce (Arg.num 1)
    if hasTarget && hasAction then
      .ok ⟨drugSearchPath,
        [("target_id", p.target_id.render), ("action_id", p.action_id.render),
         ("page", pageNum.render), ("token", tok)]⟩
    else if hasAdve then
      .ok ⟨drugSearchPath,
        [("adverse_event_id", p.adverse_event_id.render),
         ("page", pageNum.render), ("token", tok)]⟩
    else
      .error "You must provide either both target_id and action_id, or only adverse_event_id"
  else
    .error "You must provide either both target_id and action_id, or only adverse_event_id"

def getDrugs (tok : String) (oracle : Req → HttpResponse) (p : GetDrugsParams) : Run JVal :=
  Run.ofValidated oracle (getDrugsPlan tok p)

/-- Argument bag of `getAlerts` in src/index.ts. -/
structure GetAlertsParams where
  drug_id : Arg := Arg.absent
  target_id : Arg := Arg.absent
  action_id : Arg := Arg.absent
  page : Arg := Arg.absent
  adverse_event_id : Arg := Arg.absent
  ref_source_type : Arg := Arg.absent
  alert_type : Arg := Arg.absent
  alert_phase : Arg := Arg.absent
  alert_level_evidence : Arg := Arg.absent
  alert_onoff_target : Arg := Arg.absent
  alert_severity : Arg := Arg.absent
  alert_causality : Arg := Arg.absent
  alert_species : Arg := Arg.absent
  alert_date_from : Arg := Arg.absent
  alert_date_to : Arg := Arg.absent
  order_by_date : Arg := Arg.absent
  order_by_adv : Arg := Arg.absent
deriving DecidableEq

/-- Builder getAlerts up to its single fetch: field validators in source order,
then the exactly-one-of drug_id/target_id rule, then the query (fixed
`page` and `token` first, the chosen id, then the fourteen optional filter
fields in source order), routed to the drug-alerts or target-alerts path. -/
def getAlertsPlan (tok : String) (p : GetAlertsParams) : Except String Req :=
  vseq (validateCommaSeparatedNumbers p.drug_id "drug_id") <|
  vseq (validateCommaSeparatedNumbers p.target_id "target_id") <|
  vseq (validateCommaSeparatedNumbers p.action_id "action_id") <|
  vseq (validateNumber p.page "page") <|
  vseq (validateCommaSeparatedNumbers p.adverse_event_id "adverse_event_id") <|
  vseq (validateCommaSeparatedNumbers p.ref_source_type "ref_source_type") <|
  vseq (validateCommaSeparatedNumbers p.alert_type "alert_type") <|
  vseq (validateCommaSeparatedNumbers p.alert_phase "alert_phase") <|
  vseq (validateCommaSeparatedNumbers p.alert_level_evidence "alert_level_evidence") <|
  vseq (validateCommaSeparatedNumbers p.alert_onoff_target "alert_onoff_target") <|
  vseq (if p.alert_severity = Arg.absent then .ok ()
        else validateStringEnum p.alert_severity "alert_severity" ["yes", "no"]) <|
  vseq (if p.order_by_date = Arg.absent then .ok ()
        else validateStringEnum p.order_by_date "order_by_date" ["desc", "asc"]) <|
  vseq (if p.order_by_adv = Arg.absent then .ok ()
        else validateStringEnum p.order_by_adv "order_by_adv" ["desc", "asc"]) <|
  (let pageNum := p.page.coalesce (Arg.num 1)
   if (p.drug_id.truthy && p.target_id.truthy) || (!p.drug_id.truthy && !p.target_id.truthy) then
     .error "You must provide exactly one of: drug_id or target_id"
   else
     .ok ⟨(if p.drug_id.truthy then drugAlertsPath else targetAlertsPath),
       [("page", pageNum.render), ("token", tok)]
       ++ (if p.drug_id.truthy then [("drug_id", p.drug_id.render)] else [])
       ++ (if p.target_id.truthy then [("target_id", p.target_id.render)] else [])
       ++ optPair "action_id" p.action_id
       ++ optPair "adverse_event_id" p.adverse_event_id
       ++ optPair "ref_source_type" p.ref_source_type
       ++ optPair "alert_type" p.alert_type
       ++ optPair "alert_phase" p.alert_phase
       ++ optPair "alert_level_evidence" p.alert_level_evidence
       ++ optPair "alert_onoff_target" p.alert_onoff_target
       ++ optPair "alert_severity" p.alert_severity
       ++ optPair "alert_causality" p.alert_causality
       ++ optPair "alert_species" p.alert_species
       ++ optPair "alert_date_from" p.alert_date_from
       ++ optPair "alert_date_to" p.alert_date_to
       ++ optPair "order_by_date" p.order_by_date
       ++ optPair "order_by_adv" p.order_by_adv⟩)

def getAlerts (tok : String) (oracle : Req → HttpResponse) (p : GetAlertsParams) : Run JVal :=
  Run.ofValidated oracle (getAlertsPlan tok p)

/-- Builder getDrugScore up to its single fetch: `drug_id` required,
`adverse_event_id` appended when truthy, drug-score path. -/
def getDrugScorePlan (tok : String) (drug_id adverse_event_id : Arg) : Except String Req :=
  if !drug_id.truthy then .error "drug_id is required"
  else
    .ok ⟨drugScorePath,
      [("drug_id", drug_id.render), ("token", tok)]
      ++ (if adverse_event_id.truthy then [("adverse_event_id", adverse_event_id.render)] else [])⟩

/-- Builder getTargetScore up to its single fetch: `target_id` and `action_id`
required, `adverse_event_id` appended when truthy, target-score path. -/
def getTargetScorePlan (tok : String) (target_id action_id adverse_event_id : Arg) :
    Except String Req :=
  if !target_id.truthy then .error "target_id is required"
  else if !action_id.truthy then .error "action_id is required"
  else
    .ok ⟨targetScorePath,
      [("target_id", target_id.render), ("action_id", action_id.render), ("token", tok)]
      ++ (if adverse_event_id.truthy then [("adverse_event_id", adverse_event_id.render)] else [])⟩

/-- Argument bag of `getScore` in src/index.ts. -/
structure GetScoreParams where
  drug_id : Arg := Arg.absent
  adverse_event_id : Arg := Arg.absent
  target_id : Arg := Arg.absent
  action_id : Arg := Arg.absent
deriving DecidableEq

/-- Builder getScore: combination rule `drug_id` alone XOR (`target_id` AND
`action_id`), delegating to the drug-score or target-score sub-builder. -/
def getScore (tok : String) (oracle : Req → HttpResponse) (p : GetScoreParams) : Run JVal :=
  let hasDrug := p.drug_id.truthy
  let hasTarget := p.target_id.truthy
  let hasAction := p.action_id.truthy
  if (hasDrug && !hasTarget && !hasAction) || (!hasDrug && hasTarget && hasAction) then
    if hasDrug then
      Run.ofValidated oracle (getDrugScorePlan tok p.drug_id p.adverse_event_id)
    else if hasTarget && hasAction then
      Run.ofValidated oracle (getTargetScorePlan tok p.target_id p.action_id p.adverse_event_id)
    else
      Run.pureErr "You must provide either drug_id (alone), or both target_id and action_id (together)"
  else
    Run.pureErr "You must provide either drug_id (alone), or both target_id and action_id (together), but not neither, not all, and not just one of target_id/action_id"

def searchAdverseEventsPlan (tok : String) (adverse_event : Arg) : Except String Req :=
  if !adverse_event.truthy then .error "adverse_event is required"
  else .ok ⟨adverseEventSearchPath, [("adverse_event", adverse_event.render), ("token", tok)]⟩

/-- Argument bag of `getAdverseEvents` in src/index.ts. -/
structure GetAdverseEventsParams where
  drug_id : Arg := Arg.absent
  target_id : Arg := Arg.absent
deriving DecidableEq

/-- Builder getAdverseEvents up to its single fetch: exactly one of
`drug_id` / `target_id`, adverse-event-search path either way. -/
def getAdverseEventsPlan (tok : String) (p : GetAdverseEventsParams) : Except String Req :=
  if (p.drug_id.truthy && p.target_id.truthy) || (!p.drug_id.truthy && !p.target_id.truthy) then
    .error "You must provide exactly one of: drug_id or target_id"
  else if p.drug_id.truthy then
    .ok ⟨adverseEventSearchPath, [("drug_id", p.drug_id.render), ("token", tok)]⟩
  else if p.target_id.truthy then
    .ok ⟨adverseEventSearchPath, [("target_id", p.target_id.render), ("token", tok)]⟩
  else
    .error "You must provide exactly one of: drug_id or target_id"

def getAdverseEvents (tok : String) (oracle : Req → HttpResponse) (p : GetAdverseEventsParams) :
    Run JVal :=
  Run.ofValidated oracle (getAdverseEventsPlan tok p)

/-- Argument bag of `getDrugMasterview` in src/index.ts. -/
structure GetDrugMasterviewParams where
  drug_id : Arg := Arg.absent
  page : Arg := Arg.absent
  adverse_event_id : Arg := Arg.absent
  ref_source_type : Arg := Arg.absent
  alert_type : Arg := Arg.absent
  alert_phase : Arg := Arg.absent
  alert_level_evidence : Arg := Arg.absent
  alert_severity : Arg := Arg.absent
  alert_causality : Arg := Arg.absent
  alert_species : Arg := Arg.absent
  alert_date_from : Arg := Arg.absent
  alert_date_to : Arg := Arg.absent
deriving DecidableEq

/-- Builder getDrugMasterview up to its single fetch: validators in source
order, `drug_id` and `page` both required (no page default), then the
query with ten optional filter fields, drug-masterview path. -/
def getDrugMasterviewPlan (tok : String) (p : GetDrugMasterviewParams) : Except String Req :=
  vseq (validateCommaSeparatedNumbers p.drug_id "drug_id") <|
  vseq (validateNumber p.page "page") <|
  vseq (validateCommaSeparatedNumbers p.adverse_event_id "adverse_event_id") <|
  vseq (validateCommaSeparatedNumbers p.ref_source_type "ref_source_type") <|
  vseq (validateCommaSeparatedNumbers p.alert_type "alert_type") <|
  vseq (validateCommaSeparatedNumbers p.alert_phase "alert_phase") <|
  vseq (validateCommaSeparatedNumbers p.alert_level_evidence "alert_level_evidence") <|
  vseq (if p.alert_severity = Arg.absent then .ok ()
        else validateStringEnum p.alert_severity "alert_severity" ["yes", "no"]) <|
  (if !p.drug_id.truthy then .error "drug_id is required"
   else if !p.page.truthy then .error "page is required"
   else
     .ok ⟨drugMasterviewPath,
       [("drug_id", p.drug_id.render), ("page", p.page.render), ("token", tok)]
       ++ optPair "adverse_event_id" p.adverse_event_id
       ++ optPair "ref_source_type" p.ref_source_type
       ++ optPair "alert_type" p.alert_type
       ++ optPair "alert_phase" p.alert_phase
       ++ optPair "alert_level_evidence" p.alert_level_evidence
       ++ optPair "alert_severity" p.alert_severity
       ++ optPair "alert_causality" p.alert_causality
       ++ optPair "alert_species" p.alert_species
       ++ optPair "alert_date_from" p.alert_date_from
       ++ optPair "alert_date_to" p.alert_date_to⟩)

def getDrugMasterview (tok : String) (oracle : Req → HttpResponse)
    (p : GetDrugMasterviewParams) : Run JVal :=
  Run.ofValidated oracle (getDrugMasterviewPlan tok p)

def searchTargetsPlan (tok : String) (target : Arg) : Except String Req :=
  if !target.truthy then .error "target is required"
  else .ok ⟨targetSearchPath, [("target", target.render), ("token", tok)]⟩

/-- Argument bag of `getTargetMasterview` in src/index.ts. -/
structure GetTargetMasterviewParams where
  target_id : Arg := Arg.absent
  action_id : Arg := Arg.absent
  page : Arg := Arg.absent
  adverse_event_id : Arg := Arg.absent
  ref_source_type : Arg := Arg.absent
  alert_type : Arg := Arg.absent
  alert_phase : Arg := Arg.absent
  alert_level_evidence : Arg := Arg.absent
  alert_onoff_target : Arg := Arg.absent
  alert_severity : Arg := Arg.absent
  alert_causality : Arg := Arg.absent
  alert_species : Arg := Arg.absent
  alert_date_from : Arg := Arg.absent
  alert_date_to : Arg := Arg.absent
deriving DecidableEq

/-- Builder getTargetMasterview up to its single fetch: validators in source
order, `target_id` and `action_id` required, `page` defaulted to 1 via
`page ?? 1`, then the query with eleven optional filter fields,
target-masterview path. -/
def getTargetMasterviewPlan (tok : String) (p : GetTargetMasterviewParams) : Except String Req :=
  vseq (validateCommaSeparatedNumbers p.target_id "target_id") <|
  vseq (validateCommaSeparatedNumbers p.action_id "action_id") <|
  vseq (validateNumber p.page "page") <|
  vseq (validateCommaSeparatedNumbers p.adverse_event_id "adverse_event_id") <|
  vseq (validateCommaSeparatedNumbers p.ref_source_type "ref_source_type") <|
  vseq (validateCommaSeparatedNumbers p.alert_type "alert_type") <|
  vseq (validateCommaSeparatedNumbers p.alert_phase "alert_phase") <|
  vseq (validateCommaSeparatedNumbers p.alert_level_evidence "alert_level_evidence") <|
  vseq (validateCommaSeparatedNumbers p.alert_onoff_target "alert_onoff_target") <|
  vseq (if p.alert_severity = Arg.absent then .ok ()
        else validateStringEnum p.alert_severity "alert_severity" ["yes", "no"]) <|
  (if !p.target_id.truthy then .error "target_id is required"
   else if !p.action_id.truthy then .error "action_id is required"
   else
     let pageNum := p.page.coalesce (Arg.num 1)
     .ok ⟨targetMasterviewPath,
       [("target_id", p.target_id.render), ("action_id", p.action_id.render),
        ("page", pageNum.render), ("token", tok)]
       ++ optPair "adverse_event_id" p.adverse_event_id
       ++ optPair "ref_source_type" p.ref_source_type
       ++ optPair "alert_type" p.alert_type
       ++ optPair "alert_phase" p.alert_phase
       ++ optPair "alert_level_evidence" p.alert_level_evidence
       ++ optPair "alert_onoff_target" p.alert_onoff_target
       ++ optPair "alert_severity" p.alert_severity
       ++ optPair "alert_causality" p.alert_causality
       ++ optPair "alert_species" p.alert_species
       ++ optPair "alert_date_from" p.alert_date_from
       ++ optPair "alert_date_to" p.alert_date_to⟩)

def getTargetMasterview (tok : String) (oracle : Req → HttpResponse)
    (p : GetTargetMasterviewParams) : Run JVal :=
  Run.ofValidated oracle (getTargetMasterviewPlan tok p)

def getPrimaryTargetsPlan (tok : String) (drug_id : Arg) : Except String Req :=
  if !drug_id.truthy then .error "drug_id is required"
  else .ok ⟨primaryTargetsPath, [("drug_id", drug_id.render), ("token", tok)]⟩

def getPrimaryTargets (tok : String) (oracle : Req → HttpResponse) (drug_id : Arg) : Run JVal :=
  Run.ofValidated oracle (getPrimaryTargetsPlan tok drug_id)

def getSecondaryTargetsPlan (tok : String) (drug_id : Arg) : Except String Req :=
  if !drug_id.truthy then .error "drug_id is required"
  else .ok ⟨secondaryTargetsPath, [("drug_id", drug_id.render), ("token", tok)]⟩

def getSecondaryTargets (tok : String) (oracle : Req → HttpResponse) (drug_id : Arg) : Run JVal :=
  Run.ofValidated oracle (getSecondaryTargetsPlan tok drug_id)

def getTargetsByAdverseEventPlan (tok : String) (adverse_event_id : Arg) : Except String Req :=
  if !adverse_event_id.truthy then .error "adverse_event_id is required"
  else .ok ⟨targetSearchPath, [("adverse_event_id", adverse_event_id.render), ("token", tok)]⟩

def getTargetsByAdverseEvent (tok : String) (oracle : Req → HttpResponse)
    (adverse_event_id : Arg) : Run JVal :=
  Run.ofValidated oracle (getTargetsByAdverseEventPlan tok adverse_event_id)

/-- Argument bag of `getTargets` in src/index.ts. -/
structure GetTargetsParams where
  drug_id : Arg := Arg.absent
  type : Arg := Arg.absent
  adverse_event_id : Arg := Arg.absent
deriving DecidableEq

/-- Builder getTargets: exactly one of `drug_id` / `adverse_event_id`; the drug
branch defaults `type` to `"primary"` when falsy, dispatches
to the primary- or secondary-target sub-builder and reshapes the result
into a single-key object; the adverse-event branch reshapes into
`targets`. -/
def getTargets (tok : String) (oracle : Req → HttpResponse) (p : GetTargetsParams) : Run JVal :=
  if (p.drug_id.truthy && p.adverse_event_id.truthy)
      || (!p.drug_id.truthy && !p.adverse_event_id.truthy) then
    Run.pureErr "You must provide exactly one of: drug_id or adverse_event_id"
  else if p.drug_id.truthy then
    let targetType := if p.type.truthy then p.type else Arg.str "primary"
    if targetType = Arg.str "primary" then
      Run.bindResult (fun primary =>
          (targetsOrEmpty primary).map fun ts => JVal.jobj [("primary_targets", ts)])
        (getPrimaryTargets tok oracle p.drug_id)
    else if targetType = Arg.str "secondary" then
      Run.bindResult (fun secondary =>
          (targetsOrEmpty secondary).map fun ts => JVal.jobj [("secondary_targets", ts)])
        (getSecondaryTargets tok oracle p.drug_id)
    else
      Run.pureErr "type must be \"primary\" or \"secondary\""
  else if p.adverse_event_id.truthy then
    Run.bindResult (fun result =>
        (targetsOrEmpty result).map fun ts => JVal.jobj [("targets", ts)])
      (getTargetsByAdverseEvent tok oracle p.adverse_event_id)
  else
    Run.pureErr "You must provide either drug_id or adverse_event_id"

def searchDrugsByName (tok : String) (oracle : Req → HttpResponse) (drug : Arg) : Run JVal :=
  Run.ofValidated oracle (searchDrugsByNamePlan tok drug)

def searchAdverseEvents (tok : String) (oracle : Req → HttpResponse) (adverse_event : Arg) :
    Run JVal :=
  Run.ofValidated oracle (searchAdverseEventsPlan tok adverse_event)

def searchTargets (tok : String) (oracle : Req → HttpResponse) (target : Arg) : Run JVal :=
  Run.ofValidated oracle (searchTargetsPlan tok target)

/-- A parsed JSON argument bag, as handed to a builder by either
transport (CallArguments in the spec: field name to string/number value,
possibly null). -/
abbrev CallArgs := List (String × Arg)

/-- JavaScript property read `args.k` on an argument bag. -/
def getArg (args : CallArgs) (k : String) : Arg :=
  match args.lookup k with
  | some a => a
  | none => Arg.absent

def getDrugsParamsOf (args : CallArgs) : GetDrugsParams :=
  { target_id := getArg args "target_id", action_id := getArg args "action_id",
    adverse_event_id := getArg args "adverse_event_id", page := getArg args "page" }

def getAlertsParamsOf (args : CallArgs) : GetAlertsParams :=
  { drug_id := getArg args "drug_id", target_id := getArg args "target_id",
    action_id := getArg args "action_id", page := getArg args "page",
    adverse_event_id := getArg args "adverse_event_id",
    ref_source_type := getArg args "ref_source_type",
    alert_type := getArg args "alert_type", alert_phase := getArg args "alert_phase",
    alert_level_evidence := getArg args "alert_level_evidence",
    alert_onoff_target := getArg args "alert_onoff_target",
    alert_severity := getArg args "alert_severity",
    alert_causality := getArg args "alert_causality",
    alert_species := getArg args "alert_species",
    alert_date_from := getArg args "alert_date_from",
    alert_date_to := getArg args "alert_date_to",
    order_by_date := getArg args "order_by_date",
    order_by_adv := getArg args "order_by_adv" }

def getScoreParamsOf (args : CallArgs) : GetScoreParams :=
  { drug_id := getArg args "drug_id", adverse_event_id := getArg args "adverse_event_id",
    target_id := getArg args "target_id", action_id := getArg args "action_id" }

def getAdverseEventsParamsOf (args : CallArgs) : GetAdverseEventsParams :=
  { drug_id := getArg args "drug_id", target_id := getArg args "target_id" }

def getDrugMasterviewParamsOf (args : CallArgs) : GetDrugMasterviewParams :=
  { drug_id := getArg args "drug_id", page := getArg args "page",
    adverse_event_id := getArg args "adverse_event_id",
    ref_source_type := getArg args "ref_source_type",
    alert_type := getArg args "alert_type", alert_phase := getArg args "alert_phase",
    alert_level_evidence := getArg args "alert_level_evidence",
    alert_severity := getArg args "alert_severity",
    alert_causality := getArg args "alert_causality",
    alert_species := getArg args "alert_species",
    alert_date_from := getArg args "alert_date_from",
    alert_date_to := getArg args "alert_date_to" }

def getTargetMasterviewParamsOf (args : CallArgs) : GetTargetMasterviewParams :=
  { target_id := getArg args "target_id", action_id := getArg args "action_id",
    page := getArg args "page", adverse_event_id := getArg args "adverse_event_id",
    ref_source_type := getArg args "ref_source_type",
    alert_type := getArg args "alert_type", alert_phase := getArg args "alert_phase",
    alert_level_evidence := getArg args "alert_level_evidence",
    alert_onoff_target := getArg args "alert_onoff_target",
    alert_severity := getArg args "alert_severity",
    alert_causality := getArg args "alert_causality",
    alert_species := getArg args "alert_species",
    alert_date_from := getArg args "alert_date_from",
    alert_date_to := getArg args "alert_date_to" }

def getTargetsParamsOf (args : CallArgs) : GetTargetsParams :=
  { drug_id := getArg args "drug_id", type := getArg args "type",
    adverse_event_id := getArg args "adverse_event_id" }

/-- Arguments of a structured-transport tool invocation: a JSON object,
or a bare string for the single-field search tools. -/
inductive McpArgs where
  | obj (fields : CallArgs)
  | strArg (s : String)

/-- The fields the builders see when the structured transport forwards
`args` unchecked (`args as any`): destructuring a string yields no
fields. -/
def McpArgs.fields : McpArgs → CallArgs
  | .obj fs => fs
  | .strArg _ => []

/-- Outcome of a structured-transport invocation: the JSON
result, or a protocol error object with numeric code and message.
(McpError message formatting in the SDK is elided: the model carries the
raw message string.) -/
inductive McpOutcome where
  | success (v : JVal)
  | mcpError (code : Int) (message : String)

/-- The catch clause of the CallTool handler: every failure thrown inside the
handler is rethrown as `McpError(-32603, message)`. -/
def runToOutcome (r : Run JVal) : McpOutcome :=
  match r.result with
  | .ok v => .success v
  | .error e => .mcpError (-32603) e

/-- The `drug`/`target`/`adverse_event` extraction shared by the three
search tools on the structured transport: from an object read the field
and stringify it, from a bare string take the string itself. -/
def singleFieldOf (args : McpArgs) (key : String) : Option String :=
  match args with
  | .obj fields =>
      match fields.lookup key with
      | some a => some a.render
      | none => none
  | .strArg s => some s

/-- A search tool case of the CallTool handler: a missing or empty field
throws (`<key> is required`, rewrapped by the catch clause to code
-32603); otherwise the plan runs. -/
def mcpSearchCase (oracle : Req → HttpResponse) (args : McpArgs) (key : String)
    (plan : String → Except String Req) : McpOutcome :=
  match singleFieldOf args key with
  | none => .mcpError (-32603) (key ++ " is required")
  | some d =>
      if d = "" then .mcpError (-32603) (key ++ " is required")
      else runToOutcome (Run.ofValidated oracle (plan d))

/-- The CallTool request handler of the structured (MCP) transport:
dispatch on the tool name, with unknown names answered by
an McpError with code -32603 and message Unknown tool. -/
def mcpDispatch (tok : String) (oracle : Req → HttpResponse) (toolName : String)
    (args : McpArgs) : McpOutcome :=
  if toolName = "search_drugs" then
    mcpSearchCase oracle args "drug" (fun d => searchDrugsByNamePlan tok (Arg.str d))
  else if toolName = "get_drugs" then
    runToOutcome (getDrugs tok oracle (getDrugsParamsOf args.fields))
  else if toolName = "get_alerts" then
    runToOutcome (getAlerts tok oracle (getAlertsParamsOf args.fields))
  else if toolName = "get_score" then
    runToOutcome (getScore tok oracle (getScoreParamsOf args.fields))
  else if toolName = "get_drug" then
    runToOutcome (getDrugMasterview tok oracle (getDrugMasterviewParamsOf args.fields))
  else if toolName = "search_targets" then
    mcpSearchCase oracle args "target" (fun d => searchTargetsPlan tok (Arg.str d))
  else if toolName = "search_adverse_events" then
    mcpSearchCase oracle args "adverse_event" (fun d => searchAdverseEventsPlan tok (Arg.str d))
  else if toolName = "get_adverse_events" then
    runToOutcome (getAdverseEvents tok oracle (getAdverseEventsParamsOf args.fields))
  else if toolName = "get_target" then
    runToOutcome (getTargetMasterview tok oracle (getTargetMasterviewParamsOf args.fields))
  else if toolName = "get_targets" then
    runToOutcome (getTargets tok oracle (getTargetsParamsOf args.fields))
  else
    .mcpError (-32603) "Unknown tool"

/-- Modelled from the spec: the structured-invocation protocol has a
distinguished MethodNotFound error code.  The protocol SDK defining the
code (JSON-RPC -32601) is an external dependency, not part of this
source of this repository. -/
def methodNotFoundCode : Int := -32601

/-- The tool names the CallTool handler recognizes. -/
def knownToolNames : List String :=
  ["search_drugs", "get_drugs", "get_alerts", "get_score", "get_drug",
   "search_targets", "search_adverse_events", "get_adverse_events",
   "get_target", "get_targets"]

/-- An HTTP transport response: status code and JSON body. -/
structure HttpOut where
  status : Nat
  body : JVal

/-- Function sendError(res, message, code) from src/index.ts: a JSON body of
shape with the `error` and `code` fields. -/
def sendError (message : String) (code : Nat) : HttpOut :=
  ⟨code, JVal.jobj [("error", JVal.jstr message), ("code", JVal.jnum (Int.ofNat code))]⟩

/-- Body of the list_tools response; the verbose per-tool schema
objects are elided down to the tool names, which no claim depends on. -/
def listToolsBody : JVal :=
  JVal.jobj [("tools", JVal.jarr (knownToolNames.map JVal.jstr))]

/-- The routes the HTTP transport serves with POST. -/
def knownHttpPaths : List String :=
  ["/list_tools", "/search_drugs", "/get_drugs", "/get_alerts", "/get_score", "/get_drug",
   "/search_adverse_events", "/get_adverse_events", "/search_targets", "/get_target",
   "/get_targets"]

/-- Request handler of the HTTP transport for a request whose body parsed
as JSON: health check, tool listing, one route per builder (200 on
success, 400 with the error message on failure), 404 otherwise. -/
def httpDispatch (tok : String) (oracle : Req → HttpResponse) (method : String) (url : String)
    (body : CallArgs) : HttpOut :=
  if method = "GET" && url = "/health" then
    ⟨200, JVal.jobj [("status", JVal.jstr "ok")]⟩
  else if method = "POST" && url = "/list_tools" then
    ⟨200, listToolsBody⟩
  else if method = "POST" then
    let routed : Option (Run JVal) :=
      if url = "/search_drugs" then
        some (searchDrugsByName tok oracle (getArg body "drug"))
      else if url = "/get_drugs" then
        some (getDrugs tok oracle (getDrugsParamsOf body))
      else if url = "/get_alerts" then
        some (getAlerts tok oracle (getAlertsParamsOf body))
      else if url = "/get_score" then
        some (getScore tok oracle (getScoreParamsOf body))
      else if url = "/get_drug" then
        some (getDrugMasterview tok oracle (getDrugMasterviewParamsOf body))
      else if url = "/search_adverse_events" then
        some (searchAdverseEvents tok oracle (getArg body "adverse_event"))
      else if url = "/get_adverse_events" then
        some (getAdverseEvents tok oracle (getAdverseEventsParamsOf body))
      else if url = "/search_targets" then
        some (searchTargets tok oracle (getArg body "target"))
      else if url = "/get_target" then
        some (getTargetMasterview tok oracle (getTargetMasterviewParamsOf body))
      else if url = "/get_targets" then
        some (getTargets tok oracle (getTargetsParamsOf body))
      else none
    match routed with
    | none => sendError "Not found" 404
    | some r =>
        match r.result with
        | .ok v => ⟨200, v⟩
        | .error e => sendError e 400
  else
    sendError "Not found" 404

/-- A stand-in upstream that always answers 200 with a body holding an
empty `targets` array. -/
def oracleOk : Req → HttpResponse :=
  fun _ => ⟨200, "ok", JVal.jobj [("targets", JVal.jarr [])]⟩

/-- A stand-in upstream that always answers 404 with body text
`not found`. -/
def oracle404 : Req → HttpResponse :=
  fun _ => ⟨404, "not found", JVal.jnull⟩


/-- The sixteen string-valued fields of a get_alerts argument bag
(every field but the number-typed `page`). -/
inductive AlertsField where
  | drug_id | target_id | action_id | adverse_event_id | ref_source_type
  | alert_type | alert_phase | alert_level_evidence | alert_onoff_target
  | alert_severity | alert_causality | alert_species | alert_date_from
  | alert_date_to | order_by_date | order_by_adv
deriving DecidableEq

/-- Overwrite one string-valued field of a get_alerts argument bag. -/
def setAlertsField (p : GetAlertsParams) (f : AlertsField) (a : Arg) : GetAlertsParams :=
  match f with
  | .drug_id => { p with drug_id := a }
  | .target_id => { p with target_id := a }
  | .action_id => { p with action_id := a }
  | .adverse_event_id => { p with adverse_event_id := a }
  | .ref_source_type => { p with ref_source_type := a }
  | .alert_type => { p with alert_type := a }
  | .alert_phase => { p with alert_phase := a }
  | .alert_level_evidence => { p with alert_level_evidence := a }
  | .alert_onoff_target => { p with alert_onoff_target := a }
  | .alert_severity => { p with alert_severity := a }
  | .alert_causality => { p with alert_causality := a }
  | .alert_species => { p with alert_species := a }
  | .alert_date_from => { p with alert_date_from := a }
  | .alert_date_to => { p with alert_date_to := a }
  | .order_by_date => { p with order_by_date := a }
  | .order_by_adv => { p with order_by_adv := a }

/-- A fixed request used to exercise the shared fetch epilogue. -/
def witnessReq : Req := ⟨drugSearchPath, [("drug", "a"), ("token", "t")]⟩

/-! ## Shared helper lemmas -/

theorem vseq_ok (u : Unit) (rest : Except String α) : vseq (Except.ok u) rest = rest := rfl

theorem vseq_err (v : Except String Unit) (rest : Except String α)
    (h : ∃ e, rest = Except.error e) : ∃ e, vseq v rest = Except.error e := by
  cases v with
  | error e => exact ⟨e, rfl⟩
  | ok u => simpa [vseq] using h

theorem ofValidated_err (oracle : Req → HttpResponse) (plan : Except String Req)
    (h : ∃ e, plan = Except.error e) :
    (Run.ofValidated oracle plan).calls = [] ∧
      ∃ e, (Run.ofValidated oracle plan).result = Except.error e := by
  obtain ⟨e, he⟩ := h
  subst he
  exact ⟨rfl, ⟨e, rfl⟩⟩

theorem vcsn_empty (n : String) : validateCommaSeparatedNumbers (Arg.str "") n = .ok () := rfl

theorem vcsn_absent (n : String) : validateCommaSeparatedNumbers Arg.absent n = .ok () := rfl

theorem venum_empty (n : String) (allowed : List String) :
    validateStringEnum (Arg.str "") n allowed = .ok () := rfl

theorem truthy_empty : (Arg.str "").truthy = false := rfl

theorem truthy_absent : Arg.absent.truthy = false := rfl

theorem present_empty : (Arg.str "").present = false := rfl

theorem present_absent : Arg.absent.present = false := rfl

/-- The regular expression `^\d+(,\d+)*$` in terms of intercalated digit
groups: `s` matches exactly when it is a nonempty comma-separated sequence
of nonempty digit runs. -/
theorem matchesCommaNumbers_iff (s : String) :
    matchesCommaNumbers s = true ↔
      ∃ gs : List (List Char), gs ≠ [] ∧
        (∀ g ∈ gs, g ≠ [] ∧ ∀ c ∈ g, c.isDigit = true) ∧
        s.data = [','].intercalate gs := by
  constructor
  · intro h
    refine ⟨s.data.splitOn ',', ?_, ?_, (List.intercalate_splitOn s.data ',').symm⟩
    · unfold List.splitOn
      exact List.splitOnP_ne_nil _ _
    · intro g hg
      have hgood := List.all_eq_true.mp h g hg
      rw [goodGroup, Bool.and_eq_true] at hgood
      obtain ⟨h1, h2⟩ := hgood
      constructor
      · intro hnil
        subst hnil
        simp at h1
      · intro c hc
        exact List.all_eq_true.mp h2 c hc
  · rintro ⟨gs, hne, hgood, hs⟩
    have hnotin : ∀ l ∈ gs, ',' ∉ l := by
      intro l hl hmem
      have hdig := (hgood l hl).2 ',' hmem
      simp [Char.isDigit] at hdig
    have hsplit : s.data.splitOn ',' = gs := by
      rw [hs]
      exact List.splitOn_intercalate gs ',' hnotin hne
    rw [matchesCommaNumbers, hsplit]
    apply List.all_eq_true.mpr
    intro g hg
    rw [goodGroup, Bool.and_eq_true]
    refine ⟨by simpa using (hgood g hg).1, List.all_eq_true.mpr fun c hc => (hgood g hg).2 c hc⟩

theorem matchesCommaNumbers_ne_empty (t : String) (h : matchesCommaNumbers t = true) :
    t ≠ "" := by
  intro heq
  subst heq
  revert h
  decide

/-! ## Claim theorems -/

/-- Claim C1: for every tool with a combination rule (get_drugs,
get_alerts, get_score, get_adverse_events, get_targets), a disallowed
combination of key fields fails with a validation error and issues zero
upstream calls. -/
theorem claim1_combination_rules_gate_upstream (tok : String) (oracle : Req → HttpResponse) :
    (∀ p : GetDrugsParams,
      ((p.target_id.truthy && p.action_id.truthy && !p.adverse_event_id.truthy)
        || (!p.target_id.truthy && !p.action_id.truthy && p.adverse_event_id.truthy)) = false →
      (getDrugs tok oracle p).calls = [] ∧ ∃ e, (getDrugs tok oracle p).result = Except.error e)
    ∧ (∀ p : GetAlertsParams,
      ((p.drug_id.truthy && p.target_id.truthy)
        || (!p.drug_id.truthy && !p.target_id.truthy)) = true →
      (getAlerts tok oracle p).calls = [] ∧ ∃ e, (getAlerts tok oracle p).result = Except.error e)
    ∧ (∀ p : GetScoreParams,
      ((p.drug_id.truthy && !p.target_id.truthy && !p.action_id.truthy)
        || (!p.drug_id.truthy && p.target_id.truthy && p.action_id.truthy)) = false →
      (getScore tok oracle p).calls = [] ∧ ∃ e, (getScore tok oracle p).result = Except.error e)
    ∧ (∀ p : GetAdverseEventsParams,
      ((p.drug_id.truthy && p.target_id.truthy)
        || (!p.drug_id.truthy && !p.target_id.truthy)) = true →
      (getAdverseEvents tok oracle p).calls = [] ∧
        ∃ e, (getAdverseEvents tok oracle p).result = Except.error e)
    ∧ (∀ p : GetTargetsParams,
      ((p.drug_id.truthy && p.adverse_event_id.truthy)
        || (!p.drug_id.truthy && !p.adverse_event_id.truthy)) = true →
      (getTargets tok oracle p).calls = [] ∧
        ∃ e, (getTargets tok oracle p).result = Except.error e) := by
  refine ⟨?_, ?_, ?_, ?_, ?_⟩
  · intro p h
    refine ⟨?_, ?_⟩ <;> simp [getDrugs, getDrugsPlan, Run.ofValidated, h]
  · intro p h
    unfold getAlerts getAlertsPlan
    apply ofValidated_err
    apply vseq_err; apply vseq_err; apply vseq_err; apply vseq_err; apply vseq_err
    apply vseq_err; apply vseq_err; apply vseq_err; apply vseq_err; apply vseq_err
    apply vseq_err; apply vseq_err; apply vseq_err
    exact ⟨"You must provide exactly one of: drug_id or target_id", by simp [h]⟩
  · intro p h
    refine ⟨?_, ?_⟩ <;> simp [getScore, Run.pureErr, h]
  · intro p h
    refine ⟨?_, ?_⟩ <;> simp [getAdverseEvents, getAdverseEventsPlan, Run.ofValidated, h]
  · intro p h
    refine ⟨?_, ?_⟩ <;> simp [getTargets, Run.pureErr, h]

/-- Witness for C1: concrete disallowed combinations for each of the five
tools, discharged at explicit inputs. -/
theorem claim1_witness :
    ((getDrugs "t" oracleOk { target_id := Arg.str "1" }).calls = [] ∧
      ∃ e, (getDrugs "t" oracleOk { target_id := Arg.str "1" }).result = Except.error e)
    ∧ ((getAlerts "t" oracleOk
          { drug_id := Arg.str "1", target_id := Arg.str "2" }).calls = [] ∧
      ∃ e, (getAlerts "t" oracleOk
          { drug_id := Arg.str "1", target_id := Arg.str "2" }).result = Except.error e)
    ∧ ((getScore "t" oracleOk { target_id := Arg.str "158" }).calls = [] ∧
      ∃ e, (getScore "t" oracleOk { target_id := Arg.str "158" }).result = Except.error e)
    ∧ ((getAdverseEvents "t" oracleOk {}).calls = [] ∧
      ∃ e, (getAdverseEvents "t" oracleOk {}).result = Except.error e)
    ∧ ((getTargets "t" oracleOk
          { drug_id := Arg.str "1", adverse_event_id := Arg.str "2" }).calls = [] ∧
      ∃ e, (getTargets "t" oracleOk
          { drug_id := Arg.str "1", adverse_event_id := Arg.str "2" }).result = Except.error e) :=
  ⟨(claim1_combination_rules_gate_upstream "t" oracleOk).1 _ (by decide),
   (claim1_combination_rules_gate_upstream "t" oracleOk).2.1 _ (by decide),
   (claim1_combination_rules_gate_upstream "t" oracleOk).2.2.1 _ (by decide),
   (claim1_combination_rules_gate_upstream "t" oracleOk).2.2.2.1 _ (by decide),
   (claim1_combination_rules_gate_upstream "t" oracleOk).2.2.2.2 _ (by decide)⟩

/-- Counterexample for C2 as stated: the empty string is neither absent,
nor null, nor numeric, nor a match of the pattern, yet
validateCommaSeparatedNumbers accepts it. -/
theorem claim2_counterexample :
    validateCommaSeparatedNumbers (Arg.str "") "page" = .ok ()
    ∧ Arg.str "" ≠ Arg.absent
    ∧ Arg.str "" ≠ Arg.null
    ∧ (∀ n : Int, Arg.str "" ≠ Arg.num n)
    ∧ matchesCommaNumbers "" = false := by
  refine ⟨rfl, by simp, by simp, fun n => by simp, by decide⟩

/-- Claim C2 (amended: the empty string also passes, treated like an
absent value): validateCommaSeparatedNumbers passes exactly on absent,
null, the empty string, numbers, and strings matching the pattern;
every failure is the error naming the field and the expected pattern;
and the pattern holds of the concrete examples named by the claim. -/
theorem claim2_validate_comma_separated_numbers (a : Arg) (fieldName : String) :
    (validateCommaSeparatedNumbers a fieldName = .ok () ↔
      (a = Arg.absent ∨ a = Arg.null ∨ a = Arg.str ""
        ∨ (∃ n, a = Arg.num n)
        ∨ (∃ s, a = Arg.str s ∧ matchesCommaNumbers s = true)))
    ∧ (validateCommaSeparatedNumbers a fieldName = .ok ()
        ∨ validateCommaSeparatedNumbers a fieldName = .error (csnMsg fieldName))
    ∧ (∃ tail, csnMsg fieldName = fieldName ++ tail)
    ∧ (∀ s, matchesCommaNumbers s = true ↔
        ∃ gs : List (List Char), gs ≠ [] ∧
          (∀ g ∈ gs, g ≠ [] ∧ ∀ c ∈ g, c.isDigit = true) ∧
          s.data = [','].intercalate gs)
    ∧ validateCommaSeparatedNumbers (Arg.str "12a") fieldName = .error (csnMsg fieldName)
    ∧ validateCommaSeparatedNumbers (Arg.str "1,,2") fieldName = .error (csnMsg fieldName)
    ∧ validateCommaSeparatedNumbers (Arg.str "-1") fieldName = .error (csnMsg fieldName)
    ∧ validateCommaSeparatedNumbers (Arg.str "1") fieldName = .ok ()
    ∧ validateCommaSeparatedNumbers (Arg.str "1,2") fieldName = .ok ()
    ∧ validateCommaSeparatedNumbers (Arg.str "10,20,30") fieldName = .ok () := by
  refine ⟨?_, ?_, ⟨_, rfl⟩, matchesCommaNumbers_iff, rfl, rfl, rfl, rfl, rfl, rfl⟩
  · cases a with
    | absent => simp [validateCommaSeparatedNumbers]
    | null => simp [validateCommaSeparatedNumbers]
    | num n => simp [validateCommaSeparatedNumbers]
    | str s =>
        by_cases hs : s = ""
        · subst hs
          simp [validateCommaSeparatedNumbers]
        · by_cases hm : matchesCommaNumbers s
          · simp [validateCommaSeparatedNumbers, hs, hm]
          · simp only [Bool.not_eq_true] at hm
            simp [validateCommaSeparatedNumbers, hs, hm]
  · cases a with
    | absent => exact Or.inl rfl
    | null => exact Or.inl rfl
    | num n => exact Or.inl rfl
    | str s =>
        simp only [validateCommaSeparatedNumbers]
        split_ifs <;> simp

/-- Claim C3: get_score accepts drug_id alone XOR (target_id AND
action_id); the drug form issues the drug-score request, the target form
the target-score request, the mixed and incomplete forms fail before any
upstream call, and adverse_event_id is forwarded in both valid
branches. -/
theorem claim3_get_score_xor (tok : String) (oracle : Req → HttpResponse) :
    (getScore tok oracle { drug_id := Arg.str "99402" }).calls
        = [⟨drugScorePath, [("drug_id", "99402"), ("token", tok)]⟩]
    ∧ (getScore tok oracle { target_id := Arg.str "158", action_id := Arg.str "15" }).calls
        = [⟨targetScorePath, [("target_id", "158"), ("action_id", "15"), ("token", tok)]⟩]
    ∧ ((getScore tok oracle { drug_id := Arg.str "99402", target_id := Arg.str "158" }).calls = []
        ∧ ∃ e, (getScore tok oracle
            { drug_id := Arg.str "99402", target_id := Arg.str "158" }).result = Except.error e)
    ∧ ((getScore tok oracle { target_id := Arg.str "158" }).calls = []
        ∧ ∃ e, (getScore tok oracle { target_id := Arg.str "158" }).result = Except.error e)
    ∧ (∀ a : String, a ≠ "" →
        (getScore tok oracle
            { drug_id := Arg.str "99402", adverse_event_id := Arg.str a }).calls
          = [⟨drugScorePath, [("drug_id", "99402"), ("token", tok), ("adverse_event_id", a)]⟩]
        ∧ (getScore tok oracle
            { target_id := Arg.str "158", action_id := Arg.str "15",
              adverse_event_id := Arg.str a }).calls
          = [⟨targetScorePath, [("target_id", "158"), ("action_id", "15"), ("token", tok),
              ("adverse_event_id", a)]⟩]) := by
  refine ⟨rfl, rfl, ⟨rfl, ⟨_, rfl⟩⟩, ⟨rfl, ⟨_, rfl⟩⟩, ?_⟩
  intro a ha
  have hb : (a != "") = true := bne_iff_ne.mpr ha
  constructor <;>
    simp [getScore, getDrugScorePlan, getTargetScorePlan, Run.ofValidated,
      Arg.truthy, Arg.render, hb]

/-- Witness for C3: the adverse_event_id forwarding conjunct at the
concrete id 10001551. -/
theorem claim3_witness :
    ("10001551" : String) ≠ ""
    ∧ (getScore "t" oracleOk
        { drug_id := Arg.str "99402", adverse_event_id := Arg.str "10001551" }).calls
      = [⟨drugScorePath, [("drug_id", "99402"), ("token", "t"),
          ("adverse_event_id", "10001551")]⟩] :=
  ⟨by decide, ((claim3_get_score_xor "t" oracleOk).2.2.2.2 "10001551" (by decide)).1⟩

/-- Claim C4: get_drugs with target_id and action_id builds the
drug-search query with both ids and the default page 1; with only
adverse_event_id it builds the query with that id and page 1, on the same
path. -/
theorem claim4_get_drugs_queries (tok : String) (oracle : Req → HttpResponse) :
    (getDrugs tok oracle { target_id := Arg.str "123", action_id := Arg.str "456" }).calls
        = [⟨drugSearchPath,
            [("target_id", "123"), ("action_id", "456"), ("page", "1"), ("token", tok)]⟩]
    ∧ (getDrugs tok oracle { adverse_event_id := Arg.str "10001551" }).calls
        = [⟨drugSearchPath,
            [("adverse_event_id", "10001551"), ("page", "1"), ("token", tok)]⟩] :=
  ⟨rfl, rfl⟩


/-- Claim C5: get_targets with drug_id and no type defaults to the
primary-target sub-path and, whenever the property access on the 2xx body
succeeds (which it does for every non-null body), returns the single-key
`primary_targets` object; with type "secondary" likewise
`secondary_targets`; with adverse_event_id likewise `targets`; a 200
body of JSON null instead surfaces the TypeError as an error; and
both-or-neither of drug_id/adverse_event_id fails before any upstream
call. -/
theorem claim5_get_targets_shapes (tok : String) (oracle : Req → HttpResponse)
    (p : GetTargetsParams) :
    (p.drug_id.truthy = true → p.adverse_event_id.truthy = false → p.type = Arg.absent →
      (getTargets tok oracle p).calls
          = [⟨primaryTargetsPath, [("drug_id", p.drug_id.render), ("token", tok)]⟩]
      ∧ (∀ ts, 200 ≤ (oracle ⟨primaryTargetsPath,
            [("drug_id", p.drug_id.render), ("token", tok)]⟩).status →
          (oracle ⟨primaryTargetsPath,
            [("drug_id", p.drug_id.render), ("token", tok)]⟩).status ≤ 299 →
          targetsOrEmpty (oracle ⟨primaryTargetsPath,
            [("drug_id", p.drug_id.render), ("token", tok)]⟩).json = Except.ok ts →
          (getTargets tok oracle p).result
            = Except.ok (JVal.jobj [("primary_targets", ts)]))
      ∧ (200 ≤ (oracle ⟨primaryTargetsPath,
            [("drug_id", p.drug_id.render), ("token", tok)]⟩).status →
          (oracle ⟨primaryTargetsPath,
            [("drug_id", p.drug_id.render), ("token", tok)]⟩).status ≤ 299 →
          (oracle ⟨primaryTargetsPath,
            [("drug_id", p.drug_id.render), ("token", tok)]⟩).json = JVal.jnull →
          ∃ e, (getTargets tok oracle p).result = Except.error e))
    ∧ (p.drug_id.truthy = true → p.adverse_event_id.truthy = false →
        p.type = Arg.str "secondary" →
      (getTargets tok oracle p).calls
          = [⟨secondaryTargetsPath, [("drug_id", p.drug_id.render), ("token", tok)]⟩]
      ∧ (∀ ts, 200 ≤ (oracle ⟨secondaryTargetsPath,
            [("drug_id", p.drug_id.render), ("token", tok)]⟩).status →
          (oracle ⟨secondaryTargetsPath,
            [("drug_id", p.drug_id.render), ("token", tok)]⟩).status ≤ 299 →
          targetsOrEmpty (oracle ⟨secondaryTargetsPath,
            [("drug_id", p.drug_id.render), ("token", tok)]⟩).json = Except.ok ts →
          (getTargets tok oracle p).result
            = Except.ok (JVal.jobj [("secondary_targets", ts)])))
    ∧ (p.drug_id.truthy = false → p.adverse_event_id.truthy = true →
      (getTargets tok oracle p).calls
          = [⟨targetSearchPath, [("adverse_event_id", p.adverse_event_id.render),
              ("token", tok)]⟩]
      ∧ (∀ ts, 200 ≤ (oracle ⟨targetSearchPath,
            [("adverse_event_id", p.adverse_event_id.render), ("token", tok)]⟩).status →
          (oracle ⟨targetSearchPath,
            [("adverse_event_id", p.adverse_event_id.render), ("token", tok)]⟩).status ≤ 299 →
          targetsOrEmpty (oracle ⟨targetSearchPath,
            [("adverse_event_id", p.adverse_event_id.render),
             ("token", tok)]⟩).json = Except.ok ts →
          (getTargets tok oracle p).result
            = Except.ok (JVal.jobj [("targets", ts)])))
    ∧ (((p.drug_id.truthy && p.adverse_event_id.truthy)
          || (!p.drug_id.truthy && !p.adverse_event_id.truthy)) = true →
        (getTargets tok oracle p).calls = []
        ∧ ∃ e, (getTargets tok oracle p).result = Except.error e) := by
  refine ⟨?_, ?_, ?_, ?_⟩
  · intro h1 h2 ht
    have hred : getTargets tok oracle p
        = Run.bindResult (fun primary =>
            (targetsOrEmpty primary).map fun ts => JVal.jobj [("primary_targets", ts)])
            (getPrimaryTargets tok oracle p.drug_id) := by
      simp [getTargets, h1, h2, ht, truthy_absent]
    have hplan : getPrimaryTargetsPlan tok p.drug_id
        = .ok ⟨primaryTargetsPath, [("drug_id", p.drug_id.render), ("token", tok)]⟩ := by
      simp [getPrimaryTargetsPlan, h1]
    refine ⟨?_, ?_, ?_⟩
    · rw [hred]
      simp [Run.bindResult, getPrimaryTargets, Run.ofValidated, hplan]
    · intro ts hs1 hs2 hts
      rw [hred]
      simp [Run.bindResult, getPrimaryTargets, Run.ofValidated, hplan, handleResponse,
        hs1, hs2, Except.bind, hts, Except.map]
    · intro hs1 hs2 hnull
      rw [hred]
      refine ⟨"TypeError: Cannot read properties of null (reading " ++ "targets" ++ ")", ?_⟩
      simp [Run.bindResult, getPrimaryTargets, Run.ofValidated, hplan, handleResponse,
        hs1, hs2, Except.bind, hnull, targetsOrEmpty, JVal.access, Except.map]
  · intro h1 h2 ht
    have hred : getTargets tok oracle p
        = Run.bindResult (fun secondary =>
            (targetsOrEmpty secondary).map fun ts => JVal.jobj [("secondary_targets", ts)])
            (getSecondaryTargets tok oracle p.drug_id) := by
      simp [getTargets, h1, h2, ht, show (Arg.str "secondary").truthy = true from rfl]
    have hplan : getSecondaryTargetsPlan tok p.drug_id
        = .ok ⟨secondaryTargetsPath, [("drug_id", p.drug_id.render), ("token", tok)]⟩ := by
      simp [getSecondaryTargetsPlan, h1]
    constructor
    · rw [hred]
      simp [Run.bindResult, getSecondaryTargets, Run.ofValidated, hplan]
    · intro ts hs1 hs2 hts
      rw [hred]
      simp [Run.bindResult, getSecondaryTargets, Run.ofValidated, hplan, handleResponse,
        hs1, hs2, Except.bind, hts, Except.map]
  · intro h1 h2
    have hred : getTargets tok oracle p
        = Run.bindResult (fun result =>
            (targetsOrEmpty result).map fun ts => JVal.jobj [("targets", ts)])
            (getTargetsByAdverseEvent tok oracle p.adverse_event_id) := by
      simp [getTargets, h1, h2]
    have hplan : getTargetsByAdverseEventPlan tok p.adverse_event_id
        = .ok ⟨targetSearchPath, [("adverse_event_id", p.adverse_event_id.render),
            ("token", tok)]⟩ := by
      simp [getTargetsByAdverseEventPlan, h2]
    constructor
    · rw [hred]
      simp [Run.bindResult, getTargetsByAdverseEvent, Run.ofValidated, hplan]
    · intro ts hs1 hs2 hts
      rw [hred]
      simp [Run.bindResult, getTargetsByAdverseEvent, Run.ofValidated, hplan, handleResponse,
        hs1, hs2, Except.bind, hts, Except.map]
  · intro h
    refine ⟨?_, ?_⟩ <;> simp [getTargets, Run.pureErr, h]

/-- Witness for C5: concrete get_targets calls through a stand-in 200
upstream whose body holds an empty targets array, for the
primary-default and adverse-event branches. -/
theorem claim5_witness :
    ((getTargets "t" oracleOk { drug_id := Arg.str "11204" }).calls
        = [⟨primaryTargetsPath, [("drug_id", "11204"), ("token", "t")]⟩]
      ∧ (getTargets "t" oracleOk { drug_id := Arg.str "11204" }).result
        = Except.ok (JVal.jobj [("primary_targets", JVal.jarr [])]))
    ∧ ((getTargets "t" oracleOk { adverse_event_id := Arg.str "10001551" }).calls
        = [⟨targetSearchPath, [("adverse_event_id", "10001551"), ("token", "t")]⟩]
      ∧ (getTargets "t" oracleOk { adverse_event_id := Arg.str "10001551" }).result
        = Except.ok (JVal.jobj [("targets", JVal.jarr [])])) := by
  have hp := (claim5_get_targets_shapes "t" oracleOk { drug_id := Arg.str "11204" }).1
    (by decide) (by decide) rfl
  have ha := (claim5_get_targets_shapes "t" oracleOk
    { adverse_event_id := Arg.str "10001551" }).2.2.1 (by decide) (by decide)
  exact ⟨⟨hp.1, hp.2.1 (JVal.jarr []) (by decide) (by decide) rfl⟩,
    ⟨ha.1, ha.2 (JVal.jarr []) (by decide) (by decide) rfl⟩⟩

/-- Claim C6: every request builder issues exactly one upstream attempt
once validation passes; a non-2xx upstream response surfaces as an error
carrying the status code and the raw body text; a 2xx response yields the
parsed JSON body; and each named builder factors through this shared
mechanism (get_targets additionally reshaping the success value only). -/
theorem claim6_upstream_response_contract :
    (∀ (oracle : Req → HttpResponse) (plan : Except String Req) (req : Req),
      plan = Except.ok req →
      (Run.ofValidated oracle plan).calls = [req]
      ∧ ((oracle req).status < 200 ∨ 299 < (oracle req).status →
          (Run.ofValidated oracle plan).result
            = Except.error ("Request failed with status "
                ++ toString (oracle req).status ++ ": " ++ (oracle req).text))
      ∧ (200 ≤ (oracle req).status → (oracle req).status ≤ 299 →
          (Run.ofValidated oracle plan).result = Except.ok (oracle req).json))
    ∧ (∀ tok oracle drug, searchDrugsByName tok oracle drug
        = Run.ofValidated oracle (searchDrugsByNamePlan tok drug))
    ∧ (∀ tok oracle p, getDrugs tok oracle p = Run.ofValidated oracle (getDrugsPlan tok p))
    ∧ (∀ tok oracle p, getAlerts tok oracle p = Run.ofValidated oracle (getAlertsPlan tok p))
    ∧ (∀ tok oracle p, getDrugMasterview tok oracle p
        = Run.ofValidated oracle (getDrugMasterviewPlan tok p))
    ∧ (∀ tok oracle p, getTargetMasterview tok oracle p
        = Run.ofValidated oracle (getTargetMasterviewPlan tok p))
    ∧ (∀ tok oracle p, getAdverseEvents tok oracle p
        = Run.ofValidated oracle (getAdverseEventsPlan tok p))
    ∧ (∀ tok oracle a, searchAdverseEvents tok oracle a
        = Run.ofValidated oracle (searchAdverseEventsPlan tok a))
    ∧ (∀ tok oracle t, searchTargets tok oracle t
        = Run.ofValidated oracle (searchTargetsPlan tok t))
    ∧ (∀ tok oracle d, getPrimaryTargets tok oracle d
        = Run.ofValidated oracle (getPrimaryTargetsPlan tok d))
    ∧ (∀ tok oracle d, getSecondaryTargets tok oracle d
        = Run.ofValidated oracle (getSecondaryTargetsPlan tok d))
    ∧ (∀ tok oracle a, getTargetsByAdverseEvent tok oracle a
        = Run.ofValidated oracle (getTargetsByAdverseEventPlan tok a))
    ∧ (∀ (f : JVal → JVal) (r : Run JVal),
        (Run.mapResult f r).calls = r.calls
        ∧ (∀ e, r.result = Except.error e → (Run.mapResult f r).result = Except.error e)
        ∧ (∀ v, r.result = Except.ok v → (Run.mapResult f r).result = Except.ok (f v))) := by
  refine ⟨?_, ?_, ?_, ?_, ?_, ?_, ?_, ?_, ?_, ?_, ?_, ?_, ?_⟩
  case refine_2 => exact fun t o d => rfl
  case refine_3 => intro t o p; rfl
  case refine_4 => exact fun t o p => rfl
  case refine_5 => intro t o p; rfl
  case refine_6 => exact fun t o p => rfl
  case refine_7 => intro t o p; rfl
  case refine_8 => exact fun t o a => rfl
  case refine_9 => intro t o g; rfl
  case refine_10 => exact fun t o d => rfl
  case refine_11 => intro t o d; rfl
  case refine_12 => exact fun t o a => rfl
  · intro oracle plan req h
    subst h
    refine ⟨rfl, ?_, ?_⟩
    · intro hbad
      show handleResponse (oracle req) = _
      unfold handleResponse
      rw [if_neg (by omega)]
    · intro hs1 hs2
      show handleResponse (oracle req) = _
      unfold handleResponse
      rw [if_pos ⟨hs1, hs2⟩]
  · intro f r
    refine ⟨rfl, ?_, ?_⟩
    · intro e he
      simp [Run.mapResult, he, Except.map]
    · intro v hv
      simp [Run.mapResult, hv, Except.map]


/-- Witness for C6: a 404 upstream answer with body `not found` surfaces
as the error carrying both, after exactly one call; a 200 answer yields
the parsed body. -/
theorem claim6_witness :
    (Run.ofValidated oracle404 (Except.ok witnessReq)).calls = [witnessReq]
    ∧ (Run.ofValidated oracle404 (Except.ok witnessReq)).result
      = Except.error ("Request failed with status "
          ++ toString (oracle404 witnessReq).status ++ ": " ++ (oracle404 witnessReq).text)
    ∧ (Run.ofValidated oracleOk (Except.ok witnessReq)).result
      = Except.ok (oracleOk witnessReq).json :=
  ⟨(claim6_upstream_response_contract.1 oracle404 _ witnessReq rfl).1,
   (claim6_upstream_response_contract.1 oracle404 _ witnessReq rfl).2.1 (Or.inr (by decide)),
   (claim6_upstream_response_contract.1 oracleOk _ witnessReq rfl).2.2 (by decide) (by decide)⟩

/-- Counterexample for C7 as stated: a get_target call with target_id and
action_id but no page does not fail; it proceeds with page defaulted to 1
and issues the upstream call. -/
theorem claim7_counterexample :
    getTargetMasterviewPlan "t" { target_id := Arg.str "158", action_id := Arg.str "15" }
      = Except.ok ⟨targetMasterviewPath,
          [("target_id", "158"), ("action_id", "15"), ("page", "1"), ("token", "t")]⟩
    ∧ (getTargetMasterview "t" oracleOk
        { target_id := Arg.str "158", action_id := Arg.str "15" }).calls
      = [⟨targetMasterviewPath,
          [("target_id", "158"), ("action_id", "15"), ("page", "1"), ("token", "t")]⟩] :=
  ⟨rfl, rfl⟩

/-- Claim C7 (amended: page is optional and defaults to 1): get_target
requires target_id and action_id — missing either fails with no upstream
call — while a call with valid ids and no page proceeds with page 1. -/
theorem claim7_target_masterview_required (tok : String) (oracle : Req → HttpResponse) :
    (∀ p : GetTargetMasterviewParams, p.target_id.truthy = false →
      (getTargetMasterview tok oracle p).calls = []
      ∧ ∃ e, (getTargetMasterview tok oracle p).result = Except.error e)
    ∧ (∀ p : GetTargetMasterviewParams, p.action_id.truthy = false →
      (getTargetMasterview tok oracle p).calls = []
      ∧ ∃ e, (getTargetMasterview tok oracle p).result = Except.error e)
    ∧ (∀ t a : String, matchesCommaNumbers t = true → matchesCommaNumbers a = true →
      getTargetMasterviewPlan tok { target_id := Arg.str t, action_id := Arg.str a }
        = Except.ok ⟨targetMasterviewPath,
            [("target_id", t), ("action_id", a), ("page", "1"), ("token", tok)]⟩) := by
  refine ⟨?_, ?_, ?_⟩
  · intro p h
    unfold getTargetMasterview getTargetMasterviewPlan
    apply ofValidated_err
    apply vseq_err; apply vseq_err; apply vseq_err; apply vseq_err; apply vseq_err
    apply vseq_err; apply vseq_err; apply vseq_err; apply vseq_err; apply vseq_err
    exact ⟨"target_id is required", by simp [h]⟩
  · intro p h
    unfold getTargetMasterview getTargetMasterviewPlan
    apply ofValidated_err
    apply vseq_err; apply vseq_err; apply vseq_err; apply vseq_err; apply vseq_err
    apply vseq_err; apply vseq_err; apply vseq_err; apply vseq_err; apply vseq_err
    by_cases ht : p.target_id.truthy
    · exact ⟨"action_id is required", by simp [h, ht]⟩
    · simp only [Bool.not_eq_true] at ht
      exact ⟨"target_id is required", by simp [ht]⟩
  · intro t a hmt hma
    have hnt : ¬(t = "") := matchesCommaNumbers_ne_empty t hmt
    have hna : ¬(a = "") := matchesCommaNumbers_ne_empty a hma
    have hbt : (t != "") = true := bne_iff_ne.mpr hnt
    have hba : (a != "") = true := bne_iff_ne.mpr hna
    simp [getTargetMasterviewPlan, validateCommaSeparatedNumbers, hnt, hna, hmt, hma,
      vseq_ok, vcsn_absent, validateNumber, Arg.truthy, hbt, hba, Arg.coalesce, Arg.render,
      optPair, present_absent, show toString (1 : Int) = "1" from rfl]

/-- Witness for C7: required-id failure at a concrete page-only call, and
the page-default success at concrete ids. -/
theorem claim7_witness :
    ((getTargetMasterview "t" oracleOk { action_id := Arg.str "15" }).calls = []
      ∧ ∃ e, (getTargetMasterview "t" oracleOk
          { action_id := Arg.str "15" }).result = Except.error e)
    ∧ getTargetMasterviewPlan "u" { target_id := Arg.str "158", action_id := Arg.str "15" }
      = Except.ok ⟨targetMasterviewPath,
          [("target_id", "158"), ("action_id", "15"), ("page", "1"), ("token", "u")]⟩ :=
  ⟨(claim7_target_masterview_required "t" oracleOk).1 _ (by decide),
   (claim7_target_masterview_required "u" oracleOk).2.2 "158" "15" (by decide) (by decide)⟩


/-- Counterexample for C8 as stated: the structured transport answers an
unknown tool name with protocol error code -32603 (the generic
internal-error code), which is not the MethodNotFound code. -/
theorem claim8_counterexample :
    mcpDispatch "t" oracleOk "nonexistent_tool" (McpArgs.obj [])
      = McpOutcome.mcpError (-32603) "Unknown tool"
    ∧ (-32603 : Int) ≠ methodNotFoundCode :=
  ⟨rfl, by decide⟩

/-- Claim C8 (amended: the structured transport reports an unknown tool
with error code -32603 and message `Unknown tool`, not the distinguished
MethodNotFound code): unknown tool names fail with that protocol error,
and the HTTP transport answers an unknown route with 404 and a body of
shape with `error` and `code` fields. -/
theorem claim8_unknown_name_and_route (tok : String) (oracle : Req → HttpResponse)
    (args : McpArgs) (body : CallArgs) (name url : String) :
    (name ∉ knownToolNames →
      mcpDispatch tok oracle name args = McpOutcome.mcpError (-32603) "Unknown tool")
    ∧ (url ∉ knownHttpPaths →
      httpDispatch tok oracle "POST" url body = sendError "Not found" 404)
    ∧ sendError "Not found" 404
      = ⟨404, JVal.jobj [("error", JVal.jstr "Not found"), ("code", JVal.jnum 404)]⟩ := by
  refine ⟨?_, ?_, rfl⟩
  · intro h
    simp only [knownToolNames, List.mem_cons, List.not_mem_nil, or_false, not_or] at h
    obtain ⟨h1, h2, h3, h4, h5, h6, h7, h8, h9, h10⟩ := h
    simp [mcpDispatch, h1, h2, h3, h4, h5, h6, h7, h8, h9, h10]
  · intro h
    simp only [knownHttpPaths, List.mem_cons, List.not_mem_nil, or_false, not_or] at h
    obtain ⟨h1, h2, h3, h4, h5, h6, h7, h8, h9, h10, h11⟩ := h
    simp [httpDispatch, h1, h2, h3, h4, h5, h6, h7, h8, h9, h10, h11]

/-- Witness for C8: a concrete unknown tool name and a concrete unknown
route. -/
theorem claim8_witness :
    mcpDispatch "t" oracleOk "zzz_missing" (McpArgs.obj [])
      = McpOutcome.mcpError (-32603) "Unknown tool"
    ∧ httpDispatch "t" oracleOk "POST" "/zzz_missing" [] = sendError "Not found" 404 :=
  ⟨(claim8_unknown_name_and_route "t" oracleOk (McpArgs.obj []) [] "zzz_missing"
      "/zzz_missing").1 (by decide),
   (claim8_unknown_name_and_route "t" oracleOk (McpArgs.obj []) [] "zzz_missing"
      "/zzz_missing").2.1 (by decide)⟩

/-- Claim C9: in getAlerts every string-valued field supplied as the
empty string behaves exactly as if it were omitted — the whole builder
run (validation outcome, combination check, issued query, chosen path)
is identical — and the empty string passes both
validateCommaSeparatedNumbers and validateStringEnum. -/
theorem claim9_empty_string_behaves_as_absent (tok : String) (oracle : Req → HttpResponse)
    (p : GetAlertsParams) (f : AlertsField) :
    getAlerts tok oracle (setAlertsField p f (Arg.str ""))
      = getAlerts tok oracle (setAlertsField p f Arg.absent)
    ∧ (∀ n, validateCommaSeparatedNumbers (Arg.str "") n = .ok ())
    ∧ (∀ n allowed, validateStringEnum (Arg.str "") n allowed = .ok ()) := by
  refine ⟨?_, fun n => rfl, fun n allowed => rfl⟩
  cases f <;>
    simp [getAlerts, getAlertsPlan, setAlertsField, vcsn_empty, vcsn_absent, venum_empty,
      vseq_ok, truthy_empty, truthy_absent, present_empty, present_absent, optPair]

/-- Counterexample for C10 as stated: the empty string is a type value
outside the primary/secondary enum, yet get_targets does not fail — it
falls back to the primary branch and issues the upstream call. -/
theorem claim10_counterexample :
    Arg.str "" ≠ Arg.str "primary"
    ∧ Arg.str "" ≠ Arg.str "secondary"
    ∧ (getTargets "t" oracleOk { drug_id := Arg.str "11204", type := Arg.str "" }).calls
      = [⟨primaryTargetsPath, [("drug_id", "11204"), ("token", "t")]⟩]
    ∧ (getTargets "t" oracleOk { drug_id := Arg.str "11204", type := Arg.str "" }).result
      = Except.ok (JVal.jobj [("primary_targets", JVal.jarr [])]) :=
  ⟨by simp, by simp, rfl, rfl⟩

/-- Claim C10 (amended: for truthy type values, i.e. supplied and
non-empty): get_targets with drug_id and a non-empty type outside
primary/secondary fails with the enum error and makes no upstream
call. -/
theorem claim10_type_enum_guard (tok : String) (oracle : Req → HttpResponse)
    (p : GetTargetsParams) :
    p.drug_id.truthy = true → p.adverse_event_id.truthy = false →
    p.type.truthy = true → p.type ≠ Arg.str "primary" → p.type ≠ Arg.str "secondary" →
    (getTargets tok oracle p).calls = []
    ∧ (getTargets tok oracle p).result
      = Except.error "type must be \"primary\" or \"secondary\"" := by
  intro h1 h2 h3 h4 h5
  refine ⟨?_, ?_⟩ <;> simp [getTargets, Run.pureErr, h1, h2, h3, h4, h5]

/-- Witness for C10: the concrete type value `tertiary`. -/
theorem claim10_witness :
    (getTargets "t" oracleOk
        { drug_id := Arg.str "11204", type := Arg.str "tertiary" }).calls = []
    ∧ (getTargets "t" oracleOk
        { drug_id := Arg.str "11204", type := Arg.str "tertiary" }).result
      = Except.error "type must be \"primary\" or \"secondary\"" :=
  claim10_type_enum_guard "t" oracleOk _ (by decide) (by decide) (by decide)
    (by decide) (by decide)

end Offx
